import Mathlib

/-!
Shallow embedding of the port ownership resolution and reclamation engine of
the dr-cursored repository: `scripts/ports.mjs` (checkPort,
getProcessUsingPort, killProcess, scanPorts, runPorts) together with the
duplicated port probe in `scripts/doctor.mjs` and `lib/health.mjs`
(HealthChecker.checkPort).

The operating system and the Node runtime are modelled as explicit
environments: the outcome of a listen (bind) attempt on a port, the results
(exit status and stdout) of the external utilities spawned for occupant
resolution and termination.  The JavaScript string operations the source
relies on (`String.prototype.includes`, `split`, `trim().split(/\s+/)`,
`parseInt`, template interpolation of `undefined`) are modelled by
executable Lean functions on `String`/`List Char`.
-/

namespace DrCursored

/-- Outcome of the listen (bind) attempt that `http.createServer().listen`
performs, as the source observes it: either the listen callback fires
(success) or the server emits an error event carrying a JS error whose code
is a string such as "EADDRINUSE" or "EACCES". -/
inductive BindOutcome where
  | success : BindOutcome
  | failure (code : String) : BindOutcome
deriving DecidableEq

/-- Value resolved by `checkPort` in ports.mjs / doctor.mjs:
`{ free, port }`. -/
structure CheckPortResult where
  free : Bool
  port : Int
deriving DecidableEq

/-- The value `checkPort(port)` resolves for a port in Node's accepted
range [0, 65535] — from ports.mjs lines 12-23 (textually identical in
doctor.mjs lines 115-126).  `bind` is the environment: the outcome the OS
gives the listen attempt on each port.  The listen callback closes the
server and resolves `{free:true, port}`; the error handler resolves
`{free:false, port}` whatever the error was.  The promise-level function,
including the synchronous validation throw for out-of-range ports, is
`checkPortPromise`. -/
def checkPort (bind : Int → BindOutcome) (port : Int) : CheckPortResult :=
  match bind port with
  | .success => { free := true, port := port }
  | .failure _ => { free := false, port := port }

/-- The promise returned by `checkPort`, settled: `Except.error` models a
rejected promise.  `server.listen(port, ...)` validates its port argument
synchronously and throws ERR_SOCKET_BAD_PORT for values outside
[0, 65535], before any bind reaches the OS; a synchronous throw inside the
Promise executor rejects the promise, so `checkPort` of an out-of-range
port rejects.  For an in-range port the executor only ever calls
`resolve` — in the listen callback and in the error handler — so the
promise resolves on every bind outcome. -/
def checkPortPromise (bind : Int → BindOutcome) (port : Int) :
    Except String CheckPortResult :=
  if port < 0 ∨ 65535 < port then .error "ERR_SOCKET_BAD_PORT"
  else
    match bind port with
    | .success => .ok { free := true, port := port }
    | .failure _ => .ok { free := false, port := port }

/-- Value resolved by `HealthChecker.checkPort` in lib/health.mjs lines
165-184: `{ status, data: { port }, message }`; status is "healthy" when the
listen succeeded and "warning" on any error event. -/
structure HealthPortResult where
  status : String
  port : Int
  message : String
deriving DecidableEq

/-- `HealthChecker.checkPort(port)` from lib/health.mjs lines 165-184. -/
def healthCheckPort (bind : Int → BindOutcome) (port : Int) : HealthPortResult :=
  match bind port with
  | .success =>
      { status := "healthy", port := port
        message := "Port " ++ toString port ++ " is available" }
  | .failure _ =>
      { status := "warning", port := port
        message := "Port " ++ toString port ++ " is in use" }

/-- The settled promise of `HealthChecker.checkPort`: the same
`server.listen` validation throw as in `checkPortPromise` rejects it for a
port outside [0, 65535]; for an in-range port both handlers resolve. -/
def healthCheckPortPromise (bind : Int → BindOutcome) (port : Int) :
    Except String HealthPortResult :=
  if port < 0 ∨ 65535 < port then .error "ERR_SOCKET_BAD_PORT"
  else
    match bind port with
    | .success =>
        .ok { status := "healthy", port := port
              message := "Port " ++ toString port ++ " is available" }
    | .failure _ =>
        .ok { status := "warning", port := port
              message := "Port " ++ toString port ++ " is in use" }

/-! ### JS string primitives used by ports.mjs -/

/-- Is `pat` a prefix of `s` (on character lists)? -/
def isPrefixL : List Char → List Char → Bool
  | [], _ => true
  | _ :: _, [] => false
  | a :: as, b :: bs => a = b && isPrefixL as bs

/-- Does `s` contain `pat` as a contiguous substring (character lists)? -/
def containsL (pat : List Char) : List Char → Bool
  | [] => isPrefixL pat []
  | c :: cs => isPrefixL pat (c :: cs) || containsL pat cs

/-- Model of JS `s.includes(pat)`. -/
def jsIncludes (s pat : String) : Bool :=
  containsL pat.toList s.toList

/-- Split a character list on a separator predicate, keeping empty chunks
(the behaviour of JS `split('\n')`). -/
def splitOnPred (p : Char → Bool) (cs : List Char) : List (List Char) :=
  match cs with
  | [] => [[]]
  | c :: cs' =>
    match splitOnPred p cs' with
    | [] => [[]]
    | l :: ls => if p c then [] :: l :: ls else (c :: l) :: ls

/-- Model of JS `s.split('\n')`. -/
def jsSplitNl (s : String) : List String :=
  (splitOnPred (fun c => c = '\n') s.toList).map (fun l => String.mk l)

/-- Model of JS `s.trim().split(/\s+/)` — the whitespace-separated fields of
the line — for any string containing at least one non-whitespace character
(every call site applies it to a line already known to contain a non-blank
marker such as "LISTEN", for which the two agree). -/
def wsFields (s : String) : List String :=
  ((splitOnPred (fun c => c.isWhitespace) s.toList).filter
    (fun l => decide (l ≠ []))).map (fun l => String.mk l)

/-- JS template interpolation of a possibly-undefined value:
an absent string prints as "undefined". -/
def jsStr : Option String → String
  | some s => s
  | none => "undefined"

/-- The ECMAScript WhiteSpace and LineTerminator characters, which
`parseInt` skips at the start of its input: TAB, LF, VT, FF, CR, SP, NBSP,
U+1680, U+2000..U+200A, LS, PS, U+202F, U+205F, U+3000 and the BOM
U+FEFF. -/
def jsIsWhitespace (c : Char) : Bool :=
  c = ' ' || c = '\t' || c = '\n' || c = '\r' ||
  c = Char.ofNat 0x0B || c = Char.ofNat 0x0C ||
  c = Char.ofNat 0xA0 || c = Char.ofNat 0x1680 ||
  (0x2000 ≤ c.toNat && c.toNat ≤ 0x200A) ||
  c = Char.ofNat 0x2028 || c = Char.ofNat 0x2029 ||
  c = Char.ofNat 0x202F || c = Char.ofNat 0x205F ||
  c = Char.ofNat 0x3000 || c = Char.ofNat 0xFEFF

/-- Drop leading JS whitespace (the leading-trim `parseInt` performs). -/
def skipWs : List Char → List Char
  | [] => []
  | c :: cs => if jsIsWhitespace c then skipWs cs else c :: cs

/-- Model of JS `s.split(' ')` (single-space separator, empties kept). -/
def jsSplitSpace (s : String) : List String :=
  (splitOnPred (fun c => c = ' ') s.toList).map (fun l => String.mk l)

/-- The longest leading run of decimal digits. -/
def leadingDigits : List Char → List Char
  | [] => []
  | c :: cs => if c.isDigit then c :: leadingDigits cs else []

/-- Digit-list to number, most significant first. -/
def digitsToNat (ds : List Char) : Nat :=
  ds.foldl (fun a c => a * 10 + (c.toNat - 48)) 0

/-- Is the character a hexadecimal digit? -/
def isHexDigit (c : Char) : Bool :=
  c.isDigit || ('a' ≤ c && c ≤ 'f') || ('A' ≤ c && c ≤ 'F')

/-- The longest leading run of hexadecimal digits. -/
def leadingHexDigits : List Char → List Char
  | [] => []
  | c :: cs => if isHexDigit c then c :: leadingHexDigits cs else []

/-- Value of a hexadecimal digit. -/
def hexDigitVal (c : Char) : Nat :=
  if c.isDigit then c.toNat - 48
  else if 'a' ≤ c && c ≤ 'f' then c.toNat - 87
  else c.toNat - 55

/-- Hex-digit list to number, most significant first. -/
def hexToNat (ds : List Char) : Nat :=
  ds.foldl (fun a c => a * 16 + hexDigitVal c) 0

/-- The unsigned numeral of JS `parseInt` with no explicit radix: a leading
"0x"/"0X" selects radix 16 and the value is the longest run of hex digits
after the prefix (NaN when that run is empty, as for "0x" or "0xg");
otherwise the value is the longest run of decimal digits (NaN when
empty). -/
def jsParseUnsigned : List Char → Option Nat
  | '0' :: 'x' :: rest =>
      match leadingHexDigits rest with
      | [] => none
      | ds => some (hexToNat ds)
  | '0' :: 'X' :: rest =>
      match leadingHexDigits rest with
      | [] => none
      | ds => some (hexToNat ds)
  | cs =>
      match leadingDigits cs with
      | [] => none
      | ds => some (digitsToNat ds)

/-- Model of JS `parseInt(s)` (radix argument omitted): skip leading
ECMAScript whitespace, read an optional sign, then the unsigned numeral —
hex after a "0x"/"0X" prefix, decimal otherwise; `none` models `NaN`. -/
def jsParseInt (s : String) : Option Int :=
  match skipWs s.toList with
  | '-' :: rest => (jsParseUnsigned rest).map (fun n => -(n : Int))
  | '+' :: rest => (jsParseUnsigned rest).map (fun n => (n : Int))
  | rest => (jsParseUnsigned rest).map (fun n => (n : Int))

/-! ### Occupant resolution: getProcessUsingPort (ports.mjs lines 25-97) -/

/-- Result of a `spawnSync` call: exit status (`none` models Node's `null`
status, e.g. when the executable is missing or the spawn itself errored)
and captured stdout. -/
structure SpawnResult where
  status : Option Int
  stdout : String
deriving DecidableEq

/-- `process.platform === 'win32'` selects the strategy. -/
inductive Platform where
  | unixLike : Platform
  | win32 : Platform
deriving DecidableEq

/-- The record `getProcessUsingPort` returns for an occupant:
`{ pid, name, command }`.  `pid`/`name` are `Option` because the JS code
reads them by index (`parts[1]`, `parts[0]`, `parts[parts.length-1]`) and an
out-of-range index yields `undefined`. -/
structure ProcInfo where
  pid : Option String
  name : Option String
  command : String
deriving DecidableEq

/-- Environment for occupant resolution: the platform and the results of
the external utilities `spawnSync` may run (`lsof -i :port` on Unix-likes,
`netstat -ano` and `tasklist /FI pid` on Windows). -/
structure ResolveEnv where
  platform : Platform
  lsof : Int → SpawnResult
  netstat : SpawnResult
  tasklist : String → SpawnResult

/-- The first line of the primary utility's stdout that carries the listen
marker — `lines.find(line => line.includes('LISTEN'))` on Unix-likes,
`lines.find(line => line.includes(":port") && line.includes('LISTENING'))`
on Windows. -/
def markerLine (env : ResolveEnv) (port : Int) : Option String :=
  match env.platform with
  | .unixLike =>
      (jsSplitNl (env.lsof port).stdout).find? (fun line => jsIncludes line "LISTEN")
  | .win32 =>
      (jsSplitNl env.netstat.stdout).find? (fun line =>
        jsIncludes line (":" ++ toString port) && jsIncludes line "LISTENING")

/-- The spawn result of the platform's primary lookup utility. -/
def primaryLookup (env : ResolveEnv) (port : Int) : SpawnResult :=
  match env.platform with
  | .unixLike => env.lsof port
  | .win32 => env.netstat

/-- `getProcessUsingPort(port)` from ports.mjs lines 25-97.  The JS body is
wrapped in try/catch returning `null`; the embedding is total, with every
non-throwing failure path returning `none`.  Unix branch: run `lsof`, and if
its status is 0 find the first line containing "LISTEN", read pid from field
1 and name from field 0.  Windows branch: run `netstat -ano`, find the first
line containing ":port" and "LISTENING", read pid from the last field, then
run `tasklist` to find the process name (falling back to "Unknown"). -/
def getProcessUsingPort (env : ResolveEnv) (port : Int) : Option ProcInfo :=
  match env.platform with
  | .unixLike =>
    let result := env.lsof port
    if result.status = some 0 then
      match (jsSplitNl result.stdout).find? (fun line => jsIncludes line "LISTEN") with
      | some dataLine =>
        let parts := wsFields dataLine
        let pid := parts.get? 1
        let nm := parts.get? 0
        some { pid := pid, name := nm, command := "kill -9 " ++ jsStr pid }
      | none => none
    else none
  | .win32 =>
    let result := env.netstat
    if result.status = some 0 then
      match (jsSplitNl result.stdout).find? (fun line =>
          jsIncludes line (":" ++ toString port) && jsIncludes line "LISTENING") with
      | some portLine =>
        let parts := wsFields portLine
        let pid := parts.getLast?
        let taskResult := env.tasklist (jsStr pid)
        if taskResult.status = some 0 then
          match (jsSplitNl taskResult.stdout).find? (fun line =>
              jsIncludes line (jsStr pid)) with
          | some taskLine =>
            some { pid := pid, name := (wsFields taskLine).get? 0
                   command := "taskkill /PID " ++ jsStr pid ++ " /F" }
          | none =>
            some { pid := pid, name := some "Unknown"
                   command := "taskkill /PID " ++ jsStr pid ++ " /F" }
        else
          some { pid := pid, name := some "Unknown"
                 command := "taskkill /PID " ++ jsStr pid ++ " /F" }
      | none => none
    else none

/-! ### killProcess (ports.mjs lines 99-113) -/

/-- `killProcess(pid, command)` splits the command string on spaces and
spawns it; success is exit status 0.  `execStatus` is the environment: the
exit status the spawned command returns (`none` models a null status or a
thrown spawn error, both of which yield `false`).  The `pid` argument is
unused by the JS body (kept for signature fidelity). -/
def killProcess (execStatus : List String → Option Int)
    (_pid : Option String) (command : String) : Bool :=
  let cmd := jsSplitSpace command
  match execStatus cmd with
  | some 0 => true
  | _ => false

/-! ### The reclamation controller: runPorts single-port flow
(ports.mjs lines 146-188) and scanPorts (lines 115-137) -/

/-- Full environment for the controller: outcome of the first probe's bind,
outcome of the re-probe's bind after a kill (system state may have changed),
the resolution environment, and the exit status of spawned kill commands. -/
structure CtrlEnv where
  bind1 : Int → BindOutcome
  bind2 : Int → BindOutcome
  res : ResolveEnv
  execStatus : List String → Option Int

/-- One OS interaction of the single-port flow, in order of issue. -/
inductive OsAction where
  | probe (port : Int) : OsAction
  | resolveOccupant (port : Int) : OsAction
  | kill (pid : Option String) : OsAction
deriving DecidableEq

/-- Is the action a termination call? -/
def OsAction.isKill : OsAction → Bool
  | .kill _ => true
  | _ => false

/-- Is the action a probe or an occupant resolution? -/
def OsAction.isProbeOrResolve : OsAction → Bool
  | .probe _ => true
  | .resolveOccupant _ => true
  | .kill _ => false

/-- What the single-port flow of `runPorts` reports (ports.mjs lines
146-188), one constructor per terminal print path. -/
inductive PortReport where
  /-- `parseInt` gave NaN: "Invalid port number", `process.exit(1)`. -/
  | invalidPort : PortReport
  /-- probe free: "Port N is available". -/
  | freePort : PortReport
  /-- occupied, occupant resolved, kill not requested: process info printed. -/
  | occupiedResolved (proc : ProcInfo) : PortReport
  /-- occupied, resolution returned null: "Could not identify process". -/
  | occupiedUnidentified : PortReport
  /-- kill command exited non-zero: "Failed to kill process". -/
  | killFailed (proc : ProcInfo) : PortReport
  /-- kill exited 0 ("Killed process"), re-probe free: "now available". -/
  | killedNowFree (proc : ProcInfo) : PortReport
  /-- kill exited 0 ("Killed process"), re-probe occupied: "still in use". -/
  | killedStillInUse (proc : ProcInfo) : PortReport
deriving DecidableEq

/-- Did the report announce the kill as carried out — the
`spinner.succeed("Killed process")` path, taken exactly when `killProcess`
returned true, before the re-probe's message is chosen? -/
def PortReport.announcedKillSuccess : PortReport → Bool
  | .killedNowFree _ => true
  | .killedStillInUse _ => true
  | _ => false

/-- The single-port flow of `runPorts(options)` (ports.mjs lines 146-188)
for a given port argument string and kill flag, returning the report and
the trace of OS interactions it issued, in order.  Mirrors the source:
parseInt then NaN check; probe; if free, report and stop; else resolve; if
resolved and kill requested, run the kill command, and only when it exited
0 re-probe and pick the follow-up message. -/
def runPortsSingle (env : CtrlEnv) (portStr : String) (kill : Bool) :
    PortReport × List OsAction :=
  match jsParseInt portStr with
  | none => (.invalidPort, [])
  | some port =>
    match (checkPort env.bind1 port).free with
    | true => (.freePort, [.probe port])
    | false =>
      match getProcessUsingPort env.res port with
      | some proc =>
        if kill then
          if killProcess env.execStatus proc.pid proc.command then
            match (checkPort env.bind2 port).free with
            | true =>
                (.killedNowFree proc,
                 [.probe port, .resolveOccupant port, .kill proc.pid, .probe port])
            | false =>
                (.killedStillInUse proc,
                 [.probe port, .resolveOccupant port, .kill proc.pid, .probe port])
          else
            (.killFailed proc,
             [.probe port, .resolveOccupant port, .kill proc.pid])
        else (.occupiedResolved proc, [.probe port, .resolveOccupant port])
      | none => (.occupiedUnidentified, [.probe port, .resolveOccupant port])

/-- The single-port flow of `runPorts` at promise level.  `runPorts` has no
try/catch around its awaits and is invoked as `runPorts().catch(...)`, so a
rejection of `checkPort`'s promise — the synchronous ERR_SOCKET_BAD_PORT
throw of `server.listen` for a parsed port outside [0, 65535], raised
before any bind reaches the OS — propagates out of the whole flow
(`Except.error`, empty trace: the remainder of the flow never runs).
`runPortsSingle` gives the resolved continuation of each probe. -/
def runPortsSinglePromise (env : CtrlEnv) (portStr : String) (kill : Bool) :
    Except String (PortReport × List OsAction) :=
  match jsParseInt portStr with
  | none => .ok (.invalidPort, [])
  | some port =>
    match checkPortPromise env.bind1 port with
    | .error e => .error e
    | .ok result =>
      match result.free with
      | true => .ok (.freePort, [.probe port])
      | false =>
        match getProcessUsingPort env.res port with
        | some proc =>
          if kill then
            if killProcess env.execStatus proc.pid proc.command then
              match checkPortPromise env.bind2 port with
              | .error e => .error e
              | .ok newResult =>
                match newResult.free with
                | true =>
                    .ok (.killedNowFree proc,
                         [.probe port, .resolveOccupant port, .kill proc.pid,
                          .probe port])
                | false =>
                    .ok (.killedStillInUse proc,
                         [.probe port, .resolveOccupant port, .kill proc.pid,
                          .probe port])
            else
              .ok (.killFailed proc,
                   [.probe port, .resolveOccupant port, .kill proc.pid])
          else .ok (.occupiedResolved proc, [.probe port, .resolveOccupant port])
        | none =>
            .ok (.occupiedUnidentified, [.probe port, .resolveOccupant port])

/-- One entry of the `scanPorts` result list:
`{ port, inUse, process }`. -/
structure ScanResult where
  port : Int
  inUse : Bool
  process : Option ProcInfo
deriving DecidableEq

/-- The body of one iteration of the `scanPorts` loop (ports.mjs lines
118-134): probe the port; if not free, resolve the occupant. -/
def scanOne (env : CtrlEnv) (port : Int) : ScanResult :=
  let result := checkPort env.bind1 port
  if result.free = false then
    { port := port, inUse := true, process := getProcessUsingPort env.res port }
  else
    { port := port, inUse := false, process := none }

/-- The loop of `scanPorts`, by remaining iteration count. -/
def scanPortsAux (env : CtrlEnv) (port : Int) : Nat → List ScanResult
  | 0 => []
  | n + 1 => scanOne env port :: scanPortsAux env (port + 1) n

/-- `scanPorts(startPort, endPort)` from ports.mjs lines 115-137:
`for (let port = startPort; port <= endPort; port++)`, pushing one result
per port, in loop order. -/
def scanPorts (env : CtrlEnv) (startPort endPort : Int) : List ScanResult :=
  scanPortsAux env startPort (endPort + 1 - startPort).toNat

/-! ### Stateful model of the probe (for release/idempotence properties)

`checkPort` binds a listener and closes it before resolving.  To reason
about the system state the probe leaves behind, the bound-port state is
explicit: the list of currently bound ports.  `listen` on a free port adds
the port (the test listener is bound); `server.close()` removes it; the
promise resolves only after the close call, exactly as in the source. -/

/-- Stateful probe: given the bound-port state, return the resolved value
and the state after the probe returns.  On a bound port the error handler
fires and the state is untouched; on a free port the listener is bound
(`port :: bound`) and then closed (`List.erase`) before resolving. -/
def probeStep (bound : List Int) (port : Int) : CheckPortResult × List Int :=
  if port ∈ bound then
    ({ free := false, port := port }, bound)
  else
    let duringListen := port :: bound
    let afterClose := duringListen.erase port
    ({ free := true, port := port }, afterClose)

/-! ### Claim C1 — the probe's classification of bind failures -/

/-- C1 counterexample.  The claim says a bind failure with "permission
denied" yields UNKNOWN (distinct from OCCUPIED, which only the
address-in-use failure may yield).  In the code every bind error takes the
same `server.on('error')` path: a permission-denied failure ("EACCES")
produces exactly the same not-free result as an address-in-use failure
("EADDRINUSE"), and that result is the one the callers report as
"in use" — so OCCUPIED is returned for a non-address-in-use cause, and no
third state or preserved error exists. -/
theorem checkPort_eacces_indistinguishable_from_eaddrinuse :
    checkPort (fun _ => BindOutcome.failure "EACCES") 80 =
      checkPort (fun _ => BindOutcome.failure "EADDRINUSE") 80
    ∧ (checkPort (fun _ => BindOutcome.failure "EACCES") 80).free = false
    ∧ healthCheckPort (fun _ => BindOutcome.failure "EACCES") 80 =
      healthCheckPort (fun _ => BindOutcome.failure "EADDRINUSE") 80 := by
  refine ⟨rfl, rfl, rfl⟩

/-- C1 amended: the prober is two-way, not three-way.  A successful bind
yields the free result; any bind failure — address already in use,
permission denied, or any other cause — yields the same not-free result
(reported upstream as in use / occupied), with the underlying error
discarded; no UNKNOWN state exists. -/
theorem checkPort_two_way (bind : Int → BindOutcome) (port : Int) :
    ((checkPort bind port).free = true ↔ bind port = .success)
    ∧ (∀ c : String, bind port = .failure c →
        checkPort bind port = { free := false, port := port })
    ∧ ((healthCheckPort bind port).status = "warning" ↔ bind port ≠ .success) := by
  cases h : bind port <;> simp [checkPort, healthCheckPort, h]

/-! ### Claim C10 — totality of the probe's interface -/

/-- C10 counterexample.  The claim says that for every input value the
probe's promise never rejects.  For a port value outside [0, 65535] —
65536 or -1 — `server.listen` throws ERR_SOCKET_BAD_PORT synchronously
inside the Promise executor, so the promise returned by `checkPort` (and by
`HealthChecker.checkPort`) rejects, whatever the bind environment. -/
theorem checkPort_promise_rejects_out_of_range :
    checkPortPromise (fun _ => BindOutcome.success) 65536 =
      .error "ERR_SOCKET_BAD_PORT"
    ∧ checkPortPromise (fun _ => BindOutcome.success) (-1) =
      .error "ERR_SOCKET_BAD_PORT"
    ∧ healthCheckPortPromise (fun _ => BindOutcome.success) 65536 =
      .error "ERR_SOCKET_BAD_PORT" := by
  refine ⟨rfl, rfl, rfl⟩

/-- C10 amended: for every port value in [0, 65535] each probe
implementation settles its promise by resolution — never by rejection,
since on that range every handler path calls `resolve` — and the resolved
record carries a `free`/`status` flag together with a `port` field equal to
the argument; for a port value outside [0, 65535] the listen call throws
ERR_SOCKET_BAD_PORT synchronously in the executor and the returned promise
rejects, with no bind reaching the OS. -/
theorem checkPort_promise_resolution_behavior (bind : Int → BindOutcome)
    (port : Int) :
    ((0 ≤ port ∧ port ≤ 65535) →
      (checkPortPromise bind port = Except.ok (checkPort bind port)
       ∧ (checkPort bind port).port = port
       ∧ healthCheckPortPromise bind port = Except.ok (healthCheckPort bind port)
       ∧ (healthCheckPort bind port).port = port))
    ∧ ((port < 0 ∨ 65535 < port) →
      (checkPortPromise bind port = .error "ERR_SOCKET_BAD_PORT"
       ∧ healthCheckPortPromise bind port = .error "ERR_SOCKET_BAD_PORT")) := by
  constructor
  · intro h
    have hr : ¬(port < 0 ∨ 65535 < port) := by omega
    refine ⟨?_, ?_, ?_, ?_⟩ <;>
      cases hb : bind port <;>
        simp [checkPortPromise, healthCheckPortPromise, checkPort,
          healthCheckPort, hr, hb]
  · intro h
    constructor <;> simp [checkPortPromise, healthCheckPortPromise, h]

/-- C10 witness: port 3000 resolves; port 70000 rejects. -/
theorem checkPort_promise_resolution_behavior_witness :
    ((0 : Int) ≤ 3000 ∧ (3000 : Int) ≤ 65535)
    ∧ checkPortPromise (fun _ => BindOutcome.success) 3000 =
        Except.ok (checkPort (fun _ => BindOutcome.success) 3000)
    ∧ (((70000 : Int) < 0 ∨ (65535 : Int) < 70000)
       ∧ checkPortPromise (fun _ => BindOutcome.success) 70000 =
           .error "ERR_SOCKET_BAD_PORT") :=
  ⟨by decide,
   ((checkPort_promise_resolution_behavior (fun _ => BindOutcome.success) 3000).1
     (by decide)).1,
   ⟨by decide,
    ((checkPort_promise_resolution_behavior (fun _ => BindOutcome.success) 70000).2
      (by decide)).1⟩⟩

/-! ### Claim C9 — the probe releases its test bind; idempotence -/

/-- C9: probing a FREE port yields the free result both times when probed
twice with no intervening external change, and the probe releases its own
test listener before resolving: the bound-port state after the probe
returns is exactly the state before it. -/
theorem probeStep_idempotent_and_releasing (bound : List Int) (port : Int)
    (h : port ∉ bound) :
    (probeStep bound port).1.free = true
    ∧ (probeStep bound port).2 = bound
    ∧ (probeStep (probeStep bound port).2 port).1.free = true
    ∧ (probeStep (probeStep bound port).2 port).2 = bound := by
  simp [probeStep, h, List.erase_cons_head]

/-- C9 witness: the empty system, port 3000. -/
theorem probeStep_idempotent_and_releasing_witness :
    (3000 : Int) ∉ ([] : List Int)
    ∧ ((probeStep [] 3000).1.free = true
      ∧ (probeStep [] 3000).2 = []
      ∧ (probeStep (probeStep [] 3000).2 3000).1.free = true
      ∧ (probeStep (probeStep [] 3000).2 3000).2 = []) :=
  ⟨by decide, probeStep_idempotent_and_releasing [] 3000 (by decide)⟩

/-! ### Claim C3 — input validation of the single-port flow -/

/-- Environment for the C3 counterexample: every bind succeeds; resolution
utilities are absent; spawned commands fail. -/
def envC3 : CtrlEnv :=
  { bind1 := fun _ => .success
    bind2 := fun _ => .success
    res := { platform := .unixLike
             lsof := fun _ => { status := none, stdout := "" }
             netstat := { status := none, stdout := "" }
             tasklist := fun _ => { status := none, stdout := "" } }
    execStatus := fun _ => none }

/-- C3 counterexample.  The claim says every port value outside [1, 65535],
including 0, fails with `InvalidPortError` before any OS call, and that
this is the only error propagating as a hard failure.  The code's only own
check is `isNaN(parseInt(...))`: the input "0" parses, passes validation,
and the flow probes port 0 (0 is inside Node's accepted listen range
[0, 65535]) — an OS call, no invalid-port failure.  And for "65536" the
flow fails not with the invalid-port report but with a second kind of hard
failure: `server.listen`'s synchronous ERR_SOCKET_BAD_PORT throw rejects
the awaited promise and propagates out of the flow. -/
theorem runPorts_port_zero_probed_despite_range_claim :
    jsParseInt "0" = some 0
    ∧ runPortsSinglePromise envC3 "0" false =
        .ok (PortReport.freePort, [OsAction.probe 0])
    ∧ (runPortsSingle envC3 "0" false).1 ≠ PortReport.invalidPort
    ∧ runPortsSinglePromise envC3 "65536" false = .error "ERR_SOCKET_BAD_PORT" := by
  refine ⟨by decide, rfl, by decide, rfl⟩

/-- Whenever the port argument parsed, the single-port continuation never
produces the invalid-port report. -/
theorem runPortsSingle_some_not_invalid (env : CtrlEnv) (s : String)
    (kill : Bool) (port : Int) (h : jsParseInt s = some port) :
    (runPortsSingle env s kill).1 ≠ PortReport.invalidPort := by
  unfold runPortsSingle
  rw [h]
  cases hf : (checkPort env.bind1 port).free
  · cases hr : getProcessUsingPort env.res port with
    | none => simp [hf, hr]
    | some proc =>
      cases kill
      · simp [hf, hr]
      · cases hk : killProcess env.execStatus proc.pid proc.command
        · simp [hf, hr, hk]
        · cases hf2 : (checkPort env.bind2 port).free <;> simp [hf, hr, hk, hf2]
  · simp [hf]

/-- C3 amended: the flow's own validation rejects exactly the input whose
`parseInt` is NaN, with an invalid-port report and no OS call; there is no
range check against [1, 65535] in the repository's code.  Any input
parsing to an integer passes that check: a parsed port inside Node's
accepted listen range [0, 65535] — including 0 — is probed (the flow
continues as the resolved single-port algorithm), while a parsed port
outside [0, 65535], such as -1 or 65536, makes `server.listen` throw
ERR_SOCKET_BAD_PORT synchronously before any bind reaches the OS, and that
rejection propagates out of the flow as a second kind of hard failure,
distinct from the invalid-port report. -/
theorem runPorts_validation_faithful (env : CtrlEnv) (s : String)
    (kill : Bool) :
    (runPortsSinglePromise env s kill = .ok (PortReport.invalidPort, []) ↔
      jsParseInt s = none)
    ∧ (∀ port : Int, jsParseInt s = some port → 0 ≤ port → port ≤ 65535 →
        runPortsSinglePromise env s kill = .ok (runPortsSingle env s kill))
    ∧ (∀ port : Int, jsParseInt s = some port → (port < 0 ∨ 65535 < port) →
        runPortsSinglePromise env s kill = .error "ERR_SOCKET_BAD_PORT") := by
  have hin : ∀ port : Int, jsParseInt s = some port → 0 ≤ port → port ≤ 65535 →
      runPortsSinglePromise env s kill = .ok (runPortsSingle env s kill) := by
    intro port hp h0 h65
    have hr : ¬(port < 0 ∨ 65535 < port) := by omega
    have hb1 : checkPortPromise env.bind1 port = .ok (checkPort env.bind1 port) := by
      cases hb : env.bind1 port <;> simp [checkPortPromise, checkPort, hr, hb]
    have hb2 : checkPortPromise env.bind2 port = .ok (checkPort env.bind2 port) := by
      cases hb : env.bind2 port <;> simp [checkPortPromise, checkPort, hr, hb]
    unfold runPortsSinglePromise runPortsSingle
    rw [hp]
    cases hf : (checkPort env.bind1 port).free
    · cases hres : getProcessUsingPort env.res port with
      | none => simp [hb1, hf, hres]
      | some proc =>
        cases kill
        · simp [hb1, hf, hres]
        · cases hk : killProcess env.execStatus proc.pid proc.command
          · simp [hb1, hf, hres, hk]
          · cases hf2 : (checkPort env.bind2 port).free <;>
              simp [hb1, hb2, hf, hres, hk, hf2]
    · simp [hb1, hf]
  have hout : ∀ port : Int, jsParseInt s = some port →
      (port < 0 ∨ 65535 < port) →
      runPortsSinglePromise env s kill = .error "ERR_SOCKET_BAD_PORT" := by
    intro port hp h
    unfold runPortsSinglePromise
    rw [hp]
    simp [checkPortPromise, h]
  refine ⟨?_, hin, hout⟩
  cases hp : jsParseInt s with
  | none => simp [runPortsSinglePromise, hp]
  | some port =>
    simp only [hp, reduceCtorEq, iff_false]
    by_cases h : port < 0 ∨ 65535 < port
    · rw [hout port hp h]
      simp
    · have h0 : 0 ≤ port := by omega
      have h65 : port ≤ 65535 := by omega
      rw [hin port hp h0 h65]
      intro hcontra
      have hne := runPortsSingle_some_not_invalid env s kill port hp
      simp only [Except.ok.injEq] at hcontra
      exact hne (congrArg Prod.fst hcontra)

/-- C3 amended witness: input "65536" parses, is out of range, and the
flow rejects with ERR_SOCKET_BAD_PORT; input "3000" parses, is in range,
and the flow continues as the resolved single-port algorithm. -/
theorem runPorts_validation_faithful_witness :
    jsParseInt "65536" = some 65536
    ∧ ((65536 : Int) < 0 ∨ (65535 : Int) < 65536)
    ∧ runPortsSinglePromise envC3 "65536" false = .error "ERR_SOCKET_BAD_PORT"
    ∧ jsParseInt "3000" = some 3000
    ∧ runPortsSinglePromise envC3 "3000" false =
        .ok (runPortsSingle envC3 "3000" false) :=
  ⟨by decide, by decide,
   (runPorts_validation_faithful envC3 "65536" false).2.2 65536
     (by decide) (by decide),
   by decide,
   (runPorts_validation_faithful envC3 "3000" false).2.1 3000
     (by decide) (by decide) (by decide)⟩

/-! ### Claim C5 — kill=false issues no termination call -/

/-- C5: with `kill = false` the single-port flow never issues a termination
call: every OS interaction in its trace is a probe or an occupant
resolution (so in particular no action is a kill, and a process occupying
the port is untouched by the call). -/
theorem reclaim_noKill_frame (env : CtrlEnv) (s : String) :
    (runPortsSingle env s false).2.all (fun a => a.isProbeOrResolve) = true
    ∧ (runPortsSingle env s false).2.all (fun a => !a.isKill) = true := by
  cases h : jsParseInt s with
  | none => simp [runPortsSingle, h]
  | some port =>
    unfold runPortsSingle
    rw [h]
    cases hf : (checkPort env.bind1 port).free
    · cases hr : getProcessUsingPort env.res port with
      | none =>
          simp [hf, hr, OsAction.isProbeOrResolve, OsAction.isKill]
      | some proc =>
          simp [hf, hr, OsAction.isProbeOrResolve, OsAction.isKill]
    · simp [hf, OsAction.isProbeOrResolve, OsAction.isKill]

/-! ### Claim C8 — a FREE probe short-circuits the kill flow -/

/-- C8: if the port's bind probe succeeds, the kill=true flow
short-circuits: it reports the port free as a no-op, and its trace is the
single probe — no occupant resolution and no termination call are
issued. -/
theorem reclaim_free_short_circuits (env : CtrlEnv) (s : String) (port : Int)
    (h1 : jsParseInt s = some port) (h2 : env.bind1 port = .success) :
    runPortsSingle env s true = (PortReport.freePort, [OsAction.probe port]) := by
  unfold runPortsSingle
  rw [h1]
  simp [checkPort, h2]

/-- Environment for the C8 witness: every bind succeeds. -/
def envC8 : CtrlEnv :=
  { bind1 := fun _ => .success
    bind2 := fun _ => .success
    res := { platform := .unixLike
             lsof := fun _ => { status := none, stdout := "" }
             netstat := { status := none, stdout := "" }
             tasklist := fun _ => { status := none, stdout := "" } }
    execStatus := fun _ => none }

/-- C8 witness: port 3000, free. -/
theorem reclaim_free_short_circuits_witness :
    jsParseInt "3000" = some 3000
    ∧ envC8.bind1 3000 = .success
    ∧ runPortsSingle envC8 "3000" true = (PortReport.freePort, [OsAction.probe 3000]) :=
  ⟨by decide, by decide,
    reclaim_free_short_circuits envC8 "3000" 3000 (by decide) (by decide)⟩

/-! ### Claim C7 — occupied but unidentified: no termination attempted -/

/-- C7: if the probe finds the port occupied and occupant resolution
returns no occupant, the kill=true flow reports the port as occupied but
unidentified, and its trace holds only the probe and the resolution
attempt — no termination call is issued (there is no pid to target). -/
theorem reclaim_unidentified_no_kill (env : CtrlEnv) (s : String) (port : Int)
    (c : String) (h1 : jsParseInt s = some port)
    (h2 : env.bind1 port = .failure c)
    (h3 : getProcessUsingPort env.res port = none) :
    runPortsSingle env s true =
      (PortReport.occupiedUnidentified,
       [OsAction.probe port, OsAction.resolveOccupant port]) := by
  unfold runPortsSingle
  rw [h1]
  simp [checkPort, h2, h3]

/-- Environment for the C7 witness: the port is occupied ("EADDRINUSE")
but `lsof` is unavailable (null exit status), so resolution fails. -/
def envC7 : CtrlEnv :=
  { bind1 := fun _ => .failure "EADDRINUSE"
    bind2 := fun _ => .failure "EADDRINUSE"
    res := { platform := .unixLike
             lsof := fun _ => { status := none, stdout := "" }
             netstat := { status := none, stdout := "" }
             tasklist := fun _ => { status := none, stdout := "" } }
    execStatus := fun _ => some 0 }

/-- C7 witness: port 3000 occupied, resolver unavailable. -/
theorem reclaim_unidentified_no_kill_witness :
    jsParseInt "3000" = some 3000
    ∧ getProcessUsingPort envC7.res 3000 = none
    ∧ runPortsSingle envC7 "3000" true =
        (PortReport.occupiedUnidentified,
         [OsAction.probe 3000, OsAction.resolveOccupant 3000]) :=
  ⟨by decide, by decide,
    reclaim_unidentified_no_kill envC7 "3000" 3000 "EADDRINUSE"
      (by decide) (by decide) (by decide)⟩

/-! ### Claim C2 — what "succeeded" means after a kill attempt -/

/-- The occupant record the C2 environments resolve. -/
def proc123 : ProcInfo :=
  { pid := some "123", name := some "node", command := "kill -9 123" }

/-- Environment for the C2 counterexample: port 3000 occupied; `lsof`
identifies pid 123; the kill command exits 0; but the re-probe still finds
the port occupied (e.g. another process already rebound it). -/
def envC2 : CtrlEnv :=
  { bind1 := fun _ => .failure "EADDRINUSE"
    bind2 := fun _ => .failure "EADDRINUSE"
    res := { platform := .unixLike
             lsof := fun _ =>
               { status := some 0
                 stdout := "node    123 user   23u  IPv6 TCP *:3000 (LISTEN)" }
             netstat := { status := none, stdout := "" }
             tasklist := fun _ => { status := none, stdout := "" } }
    execStatus := fun _ => some 0 }

/-- C2 counterexample.  The claim says the reported termination outcome has
succeeded = true exactly when the re-probe shows the port FREE.  In the
code, success is `killProcess`'s exit status: here the kill command exits 0,
so the flow announces "Killed process 123" (the success outcome) even
though its own re-probe still shows the port occupied — the re-probe only
selects the follow-up message ("still in use"), it does not change the
success report. -/
theorem kill_reported_success_despite_occupied_reprobe :
    runPortsSingle envC2 "3000" true =
      (PortReport.killedStillInUse proc123,
       [OsAction.probe 3000, OsAction.resolveOccupant 3000,
        OsAction.kill (some "123"), OsAction.probe 3000])
    ∧ (runPortsSingle envC2 "3000" true).1.announcedKillSuccess = true
    ∧ (checkPort envC2.bind2 3000).free = false := by
  refine ⟨by decide, by decide, by decide⟩

/-- C2 amended: after a kill is attempted on an occupied, identified port,
the outcome the flow reports as success ("Killed process") is determined
solely by the kill command's exit status — succeeded exactly when the
command exited 0.  The re-probe of the same port runs only after a
successful kill, and it selects only the follow-up message: port now
available (`killedNowFree`) when the re-probe shows the port free, port
still in use (`killedStillInUse`) when it does not; a failed kill command
yields `killFailed` with no re-probe. -/
theorem kill_outcome_from_exit_status (env : CtrlEnv) (s : String)
    (port : Int) (c : String) (proc : ProcInfo)
    (h1 : jsParseInt s = some port) (h2 : env.bind1 port = .failure c)
    (h3 : getProcessUsingPort env.res port = some proc) :
    (runPortsSingle env s true).1 =
      (if killProcess env.execStatus proc.pid proc.command then
        (match env.bind2 port with
         | .success => PortReport.killedNowFree proc
         | .failure _ => PortReport.killedStillInUse proc)
       else PortReport.killFailed proc)
    ∧ (runPortsSingle env s true).1.announcedKillSuccess =
        killProcess env.execStatus proc.pid proc.command := by
  unfold runPortsSingle
  rw [h1]
  cases hk : killProcess env.execStatus proc.pid proc.command
  · simp [checkPort, h2, h3, hk, PortReport.announcedKillSuccess]
  · cases hb : env.bind2 port <;>
      simp [checkPort, h2, h3, hk, hb, PortReport.announcedKillSuccess]

/-- C2 amended witness: the envC2 environment — kill exits 0, re-probe
still occupied, outcome `killedStillInUse` announced as success. -/
theorem kill_outcome_from_exit_status_witness :
    jsParseInt "3000" = some 3000
    ∧ getProcessUsingPort envC2.res 3000 = some proc123
    ∧ (runPortsSingle envC2 "3000" true).1.announcedKillSuccess =
        killProcess envC2.execStatus proc123.pid proc123.command :=
  ⟨by decide, by decide,
    (kill_outcome_from_exit_status envC2 "3000" 3000 "EADDRINUSE" proc123
      (by decide) (by decide) (by decide)).2⟩

/-! ### Claim C4 — completeness and order of the range scan -/

/-- The scan loop runs exactly its iteration count. -/
theorem scanPortsAux_length (env : CtrlEnv) :
    ∀ (n : Nat) (p : Int), (scanPortsAux env p n).length = n := by
  intro n
  induction n with
  | zero => intro p; rfl
  | succ m ih => intro p; simp [scanPortsAux, ih]

/-- The i-th entry of the scan loop is the single-port algorithm applied to
the i-th port. -/
theorem scanPortsAux_get? (env : CtrlEnv) :
    ∀ (n : Nat) (p : Int) (i : Nat), i < n →
      (scanPortsAux env p n).get? i = some (scanOne env (p + i)) := by
  intro n
  induction n with
  | zero => intro p i h; omega
  | succ m ih =>
    intro p i h
    cases i with
    | zero => simp [scanPortsAux]
    | succ j =>
      have hj : j < m := by omega
      have step := ih (p + 1) j hj
      have harith : p + 1 + (j : Int) = p + ((j + 1 : Nat) : Int) := by
        push_cast; ring
      simp only [scanPortsAux, List.get?_cons_succ]
      rw [step, harith]

/-- C4: for every range with start ≤ end, the scan returns exactly
end − start + 1 results; the i-th result is the single-port algorithm
(probe, then occupant resolution if occupied) applied to port start + i, so
results come one per port in ascending port order; and every entry carries
the port it was scanned for.  Totality of the embedding (resolution
failures return a `none` process, they do not escape) is what makes one
port's failure unable to halt the scan of subsequent ports. -/
theorem scan_range_complete (env : CtrlEnv) (s e : Int) (h : s ≤ e) :
    (((scanPorts env s e).length : Int) = e - s + 1)
    ∧ (∀ i : Nat, i < (scanPorts env s e).length →
        (scanPorts env s e).get? i = some (scanOne env (s + i)))
    ∧ (∀ p : Int, (scanOne env p).port = p) := by
  have hn : (scanPorts env s e).length = (e + 1 - s).toNat := by
    simp [scanPorts, scanPortsAux_length]
  refine ⟨?_, ?_, ?_⟩
  · rw [hn]
    have : ((e + 1 - s).toNat : Int) = e + 1 - s := Int.toNat_of_nonneg (by omega)
    omega
  · intro i hi
    rw [hn] at hi
    exact scanPortsAux_get? env _ s i hi
  · intro p
    cases hf : (checkPort env.bind1 p).free <;> simp [scanOne, hf]

/-- Environment for the C4 witness, mirroring the spec's example: in the
range [3000, 3002] only 3001 is occupied, and occupant resolution is
unavailable (its failure must not halt the scan). -/
def envC4 : CtrlEnv :=
  { bind1 := fun p => if p = 3001 then .failure "EADDRINUSE" else .success
    bind2 := fun _ => .success
    res := { platform := .unixLike
             lsof := fun _ => { status := none, stdout := "" }
             netstat := { status := none, stdout := "" }
             tasklist := fun _ => { status := none, stdout := "" } }
    execStatus := fun _ => none }

/-- C4 witness: scanning [3000, 3002] with only 3001 occupied gives exactly
3 results in ascending port order — 3000 free, 3001 occupied (occupant
unresolved, scan not halted), 3002 free. -/
theorem scan_range_complete_witness :
    (3000 : Int) ≤ 3002
    ∧ (((scanPorts envC4 3000 3002).length : Int) = 3002 - 3000 + 1)
    ∧ (scanPorts envC4 3000 3002).get? 1 = some (scanOne envC4 (3000 + (1 : Nat)))
    ∧ scanPorts envC4 3000 3002 =
        [{ port := 3000, inUse := false, process := none },
         { port := 3001, inUse := true, process := none },
         { port := 3002, inUse := false, process := none }] :=
  ⟨by decide,
   (scan_range_complete envC4 3000 3002 (by decide)).1,
   (scan_range_complete envC4 3000 3002 (by decide)).2.1 1 (by decide),
   by decide⟩

/-! ### Claim C6 — failure modes of occupant resolution -/

/-- C6 amended: occupant resolution returns no occupant whenever the
platform's lookup utility is unavailable or exits non-zero, or when its
output contains no line carrying the listen marker ("LISTEN" on Unix-likes;
":port" together with "LISTENING" on Windows); being a total function, it
never throws, and a `none` result feeds the scan as "occupied but
unidentified" without halting it.  (When a marker line is present but lacks
the pid column, a degenerate occupant record is returned instead of none —
see the counterexample.) -/
theorem resolve_none_on_unavailable_or_no_marker (env : ResolveEnv)
    (port : Int)
    (h : (primaryLookup env port).status ≠ some 0 ∨ markerLine env port = none) :
    getProcessUsingPort env port = none := by
  cases hp : env.platform with
  | unixLike =>
    simp only [getProcessUsingPort, primaryLookup, markerLine, hp] at h ⊢
    rcases h with h | h
    · simp [h]
    · by_cases hs : (env.lsof port).status = some 0
      · simp [hs, h]
      · simp [hs]
  | win32 =>
    simp only [getProcessUsingPort, primaryLookup, markerLine, hp] at h ⊢
    rcases h with h | h
    · simp [h]
    · by_cases hs : env.netstat.status = some 0
      · simp [hs, h]
      · simp [hs]

/-- Environment for the C6 witness: `lsof` unavailable (null status). -/
def envC6 : ResolveEnv :=
  { platform := .unixLike
    lsof := fun _ => { status := none, stdout := "" }
    netstat := { status := none, stdout := "" }
    tasklist := fun _ => { status := none, stdout := "" } }

/-- C6 witness: unavailable utility resolves to no occupant. -/
theorem resolve_none_on_unavailable_or_no_marker_witness :
    (primaryLookup envC6 3000).status ≠ some 0
    ∧ getProcessUsingPort envC6 3000 = none :=
  ⟨by decide,
   resolve_none_on_unavailable_or_no_marker envC6 3000 (Or.inl (by decide))⟩

/-- Environment for the C6 counterexample: `lsof` exits 0 and its output is
the single line "LISTEN" — the marker is present but the expected pid and
name columns are not. -/
def envC6bad : ResolveEnv :=
  { platform := .unixLike
    lsof := fun _ => { status := some 0, stdout := "LISTEN" }
    netstat := { status := none, stdout := "" }
    tasklist := fun _ => { status := none, stdout := "" } }

/-- C6 counterexample.  The claim says resolution returns no occupant
whenever the output's expected columns are not found.  Here the marker line
"LISTEN" has no pid column (field 1 of the line is absent), yet resolution
returns a degenerate occupant — pid undefined, name "LISTEN", kill command
"kill -9 undefined" — rather than none. -/
theorem resolve_degenerate_occupant :
    markerLine envC6bad 3000 = some "LISTEN"
    ∧ (wsFields "LISTEN").get? 1 = none
    ∧ getProcessUsingPort envC6bad 3000 =
        some { pid := none, name := some "LISTEN", command := "kill -9 undefined" } := by
  refine ⟨by decide, by decide, by decide⟩

end DrCursored
